import Mathlib

/-!
Shallow embedding of the senate-efd-scraper pipeline (src/senate_scraper.py).

The scraper drives a browser session through the Senate EFD portal:
navigation, consent agreement, search form, result enumeration, per-report
extraction, JSON persistence and an e-mail notification.  The browser driver,
the file system and the SMTP client are external; their outcomes for one run
are captured in an environment record (Env below), and the module-level
script (the block under the name-main guard) becomes a function from that
environment to an observable trace (RunTrace below).

Pure fragments of the code (row filtering, URL enumeration, aggregation) are
translated directly as Lean functions bearing the source names.
-/

/-- One character of the whitespace class removed by the Python method strip
(space, tab, newline, carriage return, vertical tab, form feed). -/
def is_py_space (c : Char) : Bool :=
  c = ' ' || c = '\t' || c = '\n' || c = '\r' || c = Char.ofNat 11 || c = Char.ofNat 12

/-- Python text.strip(): remove leading and trailing whitespace. -/
def pyStrip (s : String) : String :=
  String.mk (((s.data.dropWhile is_py_space).reverse.dropWhile is_py_space).reverse)

/-- The conditional append idiom of the source loops: append the value when
one was produced, otherwise keep the accumulator unchanged. -/
def append_opt {β : Type} (acc : List β) (res : Option β) : List β :=
  match res with
  | some b => acc ++ [b]
  | none => acc

/-- The transaction dictionary built in process_single_report: nine text
fields, one per table cell. -/
structure Transaction where
  number : String
  transaction_date : String
  owner : String
  ticker : String
  asset_name : String
  asset_type : String
  type : String
  amount : String
  comment : String
  deriving DecidableEq, Repr

/-- The report_data dictionary of process_single_report: source URL,
retrieval timestamp, and the transactions parsed from the detail table. -/
structure ReportData where
  url : String
  timestamp : String
  transactions : List Transaction
  deriving DecidableEq, Repr

/-- The body of the row loop in process_single_report: a row is turned into
a Transaction exactly when it has at least 9 cells (len(cells) >= 9), each
field being the stripped text of one of the first nine cells.  The guard
makes the getD defaults unreachable. -/
def row_transaction (cells : List String) : Option Transaction :=
  if 9 ≤ cells.length then
    some { number := pyStrip (cells.getD 0 ""),
           transaction_date := pyStrip (cells.getD 1 ""),
           owner := pyStrip (cells.getD 2 ""),
           ticker := pyStrip (cells.getD 3 ""),
           asset_name := pyStrip (cells.getD 4 ""),
           asset_type := pyStrip (cells.getD 5 ""),
           type := pyStrip (cells.getD 6 ""),
           amount := pyStrip (cells.getD 7 ""),
           comment := pyStrip (cells.getD 8 "") }
  else none

/-- SenateScraper.process_single_report.  The driver outcome for the page is
the argument page: none models a timeout or driver failure while loading the
detail page or waiting for its table (the except branches return None); some
rows gives the text matrix of the detail table including its header row.  The
loop skips the header (rows[1:]) and appends one transaction per well-formed
row. -/
def process_single_report (url timestamp : String)
    (page : Option (List (List String))) : Option ReportData :=
  match page with
  | none => none
  | some rows =>
      some { url := url, timestamp := timestamp,
             transactions :=
               (rows.drop 1).foldl
                 (fun txs cells => append_opt txs (row_transaction cells)) [] }

/-- SenateScraper.process_all_reports: iterate over the discovered URLs in
order, appending each successful extraction and skipping failures. -/
def process_all_reports (fetch : String → Option ReportData)
    (report_urls : List String) : List ReportData :=
  report_urls.foldl (fun all_reports url => append_opt all_reports (fetch url)) []

/-- SenateScraper.check_empty_results: find_elements with class
dataTables_empty; returns True exactly when that list is nonempty. -/
def check_empty_results (empty_results : List Unit) : Bool :=
  !empty_results.isEmpty

/-- The per-anchor contribution of extract_report_urls: get_attribute for
href yields none when the attribute is absent, and the loop treats the empty
string as falsy, so only a present non-empty href contributes. -/
def href_value (link : Option String) : Option String :=
  match link with
  | some url => if url = "" then none else some url
  | none => none

/-- SenateScraper.extract_report_urls.  The argument models the driver view:
none means locating the tbody raised (the except branch returns the empty
list); some links gives, in document order, the href attribute of every
anchor in the tbody (none for an anchor without the attribute).  The loop
appends a URL only when get_attribute returned a truthy value, i.e. a
present, non-empty string. -/
def extract_report_urls (tbody : Option (List (Option String))) : List String :=
  match tbody with
  | none => []
  | some links =>
      links.foldl (fun urls link => append_opt urls (href_value link)) []

/-- Subject of the success notification sent by the main script. -/
def success_subject (today : String) : String :=
  "Senate Report " ++ today ++ " - Success"

/-- Subject of the no-reports notification sent by the main script. -/
def no_reports_subject (today : String) : String :=
  "Senate Report " ++ today ++ " - No Reports"

/-- Subject of the notification sent from the outermost exception handler. -/
def error_subject : String :=
  "Error - Unexpected Exception"

/-- External outcomes fixed for one run: whether driver construction,
navigation, the consent click and the search form succeed; the driver view
of the results page (the dataTables_empty marker and the tbody anchors); the
driver outcome for each detail URL; whether the JSON save succeeds; whether
a send_notification call raises; and the date and timestamp strings. -/
structure Env where
  setup_ok : Bool
  nav_ok : Bool
  agree_ok : Bool
  form_ok : Bool
  empty_marker : Bool
  tbody : Option (List (Option String))
  detail_page : String → Option (List (List String))
  save_ok : Bool
  notify_raises : Bool
  today : String
  now : String

/-- The fetch argument the main script passes through process_all_reports:
process_single_report applied to the driver outcome of the URL. -/
def fetch_report (env : Env) (url : String) : Option ReportData :=
  process_single_report url env.now (env.detail_page url)

/-- Observable trace of one run: how many times check_empty_results was
invoked, which URLs were passed to process_single_report, the aggregated
report list, the subjects of the attempted notifications in order, how many
times driver.quit ran, and the process exit code. -/
structure RunTrace where
  empty_check_calls : Nat
  extraction_attempts : List String
  reports : List ReportData
  notifications : List String
  quit_calls : Nat
  exit_code : Nat
  deriving DecidableEq, Repr

/-- The report_urls local of the main script: the enumeration outcome. -/
def report_urls_of (env : Env) : List String :=
  extract_report_urls env.tbody

/-- The all_reports local of the main script: when report_urls is falsy the
conditional expression yields the empty list without calling
process_all_reports, otherwise every URL is processed. -/
def all_reports_of (env : Env) : List ReportData :=
  if (report_urls_of env).isEmpty then []
  else process_all_reports (fetch_report env) (report_urls_of env)

/-- The URLs passed to process_single_report: all of report_urls when
process_all_reports runs, none otherwise (the two cases coincide, since the
loop is skipped exactly when report_urls is empty). -/
def attempts_of (env : Env) : List String :=
  if (report_urls_of env).isEmpty then [] else report_urls_of env

/-- The notification subjects sent from inside the with-block: Success after
a saved report file, nothing when the save fails (the script has no else
branch for that case), and No Reports when all_reports is falsy. -/
def body_notifs (env : Env) : List String :=
  if (all_reports_of env).isEmpty then [no_reports_subject env.today]
  else if env.save_ok then [success_subject env.today] else []

/-- The body of the with-block in the main script, yielding the attempted
URLs, the aggregated reports and the subjects of the notifications sent from
inside the block.  check_empty_results is never called there, and the
empty_marker field of the environment is never consulted. -/
def run_body (env : Env) : List String × List ReportData × List String :=
  if env.nav_ok && env.agree_ok then
    if env.form_ok then (attempts_of env, all_reports_of env, body_notifs env)
    else ([], [], [])
  else ([], [], [])

/-- The module-level script under the name-main guard.  If driver setup
raises, the with-block is never entered, the scraper name is unbound so the
outer handler sends nothing, and the process exits 1.  Otherwise the
with-block runs; on its exit the context manager calls cleanup, hence
driver.quit, exactly once.  A notification raise propagates after that
cleanup to the outer handler, which attempts one more notification and the
process ends with a nonzero code; otherwise the script falls off the end
with exit code 0. -/
def mainRun (env : Env) : RunTrace :=
  if env.setup_ok then
    let notifs := (run_body env).2.2
    let raised := env.notify_raises && !notifs.isEmpty
    { empty_check_calls := 0
      extraction_attempts := (run_body env).1
      reports := (run_body env).2.1
      notifications := if raised then notifs ++ [error_subject] else notifs
      quit_calls := 1
      exit_code := if raised then 1 else 0 }
  else
    { empty_check_calls := 0
      extraction_attempts := []
      reports := []
      notifications := []
      quit_calls := 0
      exit_code := 1 }

/-- A detail-page text matrix used by concrete runs: a header row followed by
one well-formed nine-cell data row. -/
def basePage : List (List String) :=
  [["#", "Transaction Date", "Owner", "Ticker", "Asset Name", "Asset Type",
    "Type", "Amount", "Comment"],
   [" 1 ", "01/02/2024", "Self", "ABC", "Acme Corp", "Stock", "Purchase",
    "$1,001 - $15,000", " -- "]]

/-- A fully successful environment: driver setup, navigation, consent and
search succeed, two report links are found, both detail pages load, the JSON
save succeeds and notifications do not raise. -/
def baseEnv : Env :=
  { setup_ok := true, nav_ok := true, agree_ok := true, form_ok := true,
    empty_marker := false,
    tbody := some [some "u1", some "u2"],
    detail_page := fun _ => some basePage,
    save_ok := true, notify_raises := false, today := "d", now := "n" }

/-- Two discovered references of which the second one fails to extract. -/
def oneFailEnv : Env :=
  { baseEnv with detail_page := fun u => if u = "u1" then some basePage else none }

/-- A run whose results page carries the dataTables_empty marker and whose
result table body holds no anchors. -/
def emptyResultsEnv : Env :=
  { baseEnv with empty_marker := true, tbody := some [] }

/-- A result table whose markup repeats the same anchor URL twice. -/
def dupLinksEnv : Env :=
  { baseEnv with tbody := some [some "u", some "u"] }

/-- A results page with no empty marker yet zero anchors in the table body. -/
def zeroAnchorsEnv : Env :=
  { baseEnv with empty_marker := false, tbody := some [] }

/-- A run whose navigation stage fails (navigate_to_search returns False). -/
def navFailEnv : Env :=
  { baseEnv with nav_ok := false }

/-- A run whose reports were extracted but whose JSON save fails. -/
def saveFailEnv : Env :=
  { baseEnv with save_ok := false }

/-- A run whose consent stage fails, used for the exit-code claim. -/
def agreeFailEnv : Env :=
  { baseEnv with agree_ok := false }

/-- Two discovered references, every extraction of which fails. -/
def allFailEnv : Env :=
  { baseEnv with detail_page := fun _ => none }

/-- A nine-cell data row used by concrete checks. -/
def nineCells : List String :=
  [" 1 ", "01/02/2024", "Self", "ABC", "Acme Corp", "Stock", "Purchase",
   "$1,001 - $15,000", " -- "]

/-- A concrete extraction oracle succeeding only on the URL a. -/
def testFetch (url : String) : Option ReportData :=
  if url = "a" then some { url := "a", timestamp := "n", transactions := [] }
  else none

/-- Appending a missing value leaves the accumulator unchanged. -/
theorem append_opt_none {β : Type} (acc : List β) : append_opt acc none = acc := rfl

/-- Appending a produced value adds it at the end. -/
theorem append_opt_some {β : Type} (acc : List β) (b : β) :
    append_opt acc (some b) = acc ++ [b] := rfl

/-- Folding the conditional-append step over a list equals the accumulator
followed by filterMap: the loops keep exactly the produced values, in
order. -/
theorem foldl_append_opt_eq_filterMap {α β : Type} (f : α → Option β)
    (l : List α) (acc : List β) :
    l.foldl (fun r x => append_opt r (f x)) acc = acc ++ l.filterMap f := by
  induction l generalizing acc with
  | nil => simp
  | cons x l ih =>
      simp only [List.foldl_cons]
      cases hfx : f x with
      | none =>
          rw [append_opt_none, ih]
          simp [List.filterMap_cons, hfx]
      | some b =>
          rw [append_opt_some, ih]
          simp [List.filterMap_cons, hfx]

/-- The aggregation loop keeps exactly the successful extractions, in order. -/
theorem process_all_reports_eq_filterMap (fetch : String → Option ReportData)
    (report_urls : List String) :
    process_all_reports fetch report_urls = report_urls.filterMap fetch := by
  simpa [process_all_reports] using foldl_append_opt_eq_filterMap fetch report_urls []

/-- URL enumeration over a located table body is the filterMap of the
per-anchor href contribution, hence order preserving. -/
theorem extract_report_urls_eq_filterMap (links : List (Option String)) :
    extract_report_urls (some links) = links.filterMap href_value := by
  simpa [extract_report_urls] using foldl_append_opt_eq_filterMap href_value links []

/-- The row loop of process_single_report keeps exactly the well-formed
rows, in order. -/
theorem single_report_transactions (url timestamp : String)
    (rows : List (List String)) :
    process_single_report url timestamp (some rows)
      = some { url := url, timestamp := timestamp,
               transactions := (rows.drop 1).filterMap row_transaction } := by
  simpa [process_single_report] using
    foldl_append_opt_eq_filterMap row_transaction (rows.drop 1) []

/-- Successes and failures of a partial function partition a list. -/
theorem length_filterMap_add_none {α β : Type} (f : α → Option β) (l : List α) :
    (l.filterMap f).length + (l.filter (fun x => (f x).isNone)).length = l.length := by
  induction l with
  | nil => simp
  | cons x l ih =>
      cases hfx : f x with
      | none =>
          simp only [List.filterMap_cons, hfx, List.filter_cons, Option.isNone_none,
            if_true, List.length_cons]
          omega
      | some b =>
          simp only [List.filterMap_cons, hfx, List.filter_cons, Option.isNone_some,
            Bool.false_eq_true, if_false, List.length_cons]
          omega

/-- Enumeration keeps every occurrence of a non-empty URL: its multiplicity
in the output equals the multiplicity of its anchor in the markup. -/
theorem count_filterMap_href (links : List (Option String)) (u : String)
    (hu : u ≠ "") :
    (links.filterMap href_value).count u = links.count (some u) := by
  induction links with
  | nil => simp
  | cons link rest ih =>
      cases link with
      | none => simp [List.filterMap_cons, href_value, List.count_cons, ih]
      | some v =>
          by_cases hv : v = ""
          · subst hv
            have h0 : ¬("" = u) := fun h => hu h.symm
            simp [List.filterMap_cons, href_value, List.count_cons, ih, h0]
          · simp [List.filterMap_cons, href_value, hv, List.count_cons, ih]

/-- The aggregated list is the filterMap of the enumeration, whether or not
the loop was skipped for an empty enumeration. -/
theorem all_reports_of_eq (env : Env) :
    all_reports_of env = (report_urls_of env).filterMap (fetch_report env) := by
  by_cases h : (report_urls_of env).isEmpty
  · have he : report_urls_of env = [] := by simpa using h
    simp [all_reports_of, h, he]
  · simp [all_reports_of, h, process_all_reports_eq_filterMap]

/-- The attempted URLs are exactly the enumerated URLs. -/
theorem attempts_of_eq (env : Env) : attempts_of env = report_urls_of env := by
  by_cases h : (report_urls_of env).isEmpty
  · have he : report_urls_of env = [] := by simpa using h
    simp [attempts_of, h, he]
  · simp [attempts_of, h]

/-- On the path where navigation, consent and the search form all succeed,
the with-block enumerates the table, aggregates the successful extractions
and picks the notification subject from the outcome. -/
theorem run_body_processing (env : Env) (hn : env.nav_ok = true)
    (ha : env.agree_ok = true) (hf : env.form_ok = true) :
    run_body env = (attempts_of env, all_reports_of env, body_notifs env) := by
  simp [run_body, hn, ha, hf]

/-- When driver setup succeeds and no notification raises, the trace is the
with-block outcome with one driver quit and exit code 0. -/
theorem mainRun_no_raise (env : Env) (hs : env.setup_ok = true)
    (hr : env.notify_raises = false) :
    mainRun env
      = { empty_check_calls := 0
          extraction_attempts := (run_body env).1
          reports := (run_body env).2.1
          notifications := (run_body env).2.2
          quit_calls := 1
          exit_code := 0 } := by
  simp [mainRun, hs, hr]

/-- Claim C1, counterexample: a run of two discovered references in which
one extraction fails (M = 2, k = 1) keeps the single successful record, yet
its only terminal classification, the notification subject, is the plain
Success subject, identical to that of the fully successful run; the script
produces no failure count and no PARTIAL outcome. -/
theorem partial_extraction_reported_success :
    (mainRun oneFailEnv).reports.length = 1
    ∧ (mainRun oneFailEnv).extraction_attempts.length = 2
    ∧ (mainRun oneFailEnv).notifications = [success_subject "d"]
    ∧ (mainRun baseEnv).notifications = [success_subject "d"] := by
  refine ⟨rfl, rfl, rfl, rfl⟩

/-- Claim C1, amended: on a run that reaches report processing with the save
succeeding and notifications not raising, the aggregated result holds
exactly the M minus k successful records in discovery order; no failure
count is tracked, and the terminal subject is Success exactly when at least
one extraction succeeded (k less than M), No Reports otherwise. -/
theorem aggregate_records_and_terminal_subject (env : Env)
    (hs : env.setup_ok = true) (hn : env.nav_ok = true)
    (ha : env.agree_ok = true) (hf : env.form_ok = true)
    (hsave : env.save_ok = true) (hr : env.notify_raises = false) :
    (mainRun env).reports = (report_urls_of env).filterMap (fetch_report env)
    ∧ (mainRun env).reports.length
        = (report_urls_of env).length
          - ((report_urls_of env).filter (fun u => (fetch_report env u).isNone)).length
    ∧ ((mainRun env).reports ≠ []
        ↔ ((report_urls_of env).filter (fun u => (fetch_report env u).isNone)).length
            < (report_urls_of env).length)
    ∧ (mainRun env).notifications
        = (if (mainRun env).reports.isEmpty then [no_reports_subject env.today]
           else [success_subject env.today]) := by
  have hm := mainRun_no_raise env hs hr
  have hb := run_body_processing env hn ha hf
  have hrep : (mainRun env).reports = (report_urls_of env).filterMap (fetch_report env) := by
    rw [hm]
    simp [hb, all_reports_of_eq]
  have hlen := length_filterMap_add_none (fetch_report env) (report_urls_of env)
  have hle : ((report_urls_of env).filter (fun u => (fetch_report env u).isNone)).length
      ≤ (report_urls_of env).length := List.length_filter_le _ _
  refine ⟨hrep, ?_, ?_, ?_⟩
  · rw [hrep]
    omega
  · rw [hrep]
    constructor
    · intro hne
      have hpos : 0 < ((report_urls_of env).filterMap (fetch_report env)).length :=
        List.length_pos.mpr hne
      omega
    · intro hk h0
      have hz : ((report_urls_of env).filterMap (fetch_report env)).length = 0 := by
        rw [h0]
        rfl
      omega
  · rw [hm]
    simp [hb, body_notifs, hsave, all_reports_of_eq]

/-- Claim C1, witness: the amended statement instantiated at the concrete
run with two references of which the second extraction fails. -/
theorem aggregate_records_and_terminal_subject_witness :
    oneFailEnv.setup_ok = true ∧ oneFailEnv.save_ok = true
    ∧ ((mainRun oneFailEnv).reports
        = (report_urls_of oneFailEnv).filterMap (fetch_report oneFailEnv)
      ∧ (mainRun oneFailEnv).reports.length
          = (report_urls_of oneFailEnv).length
            - ((report_urls_of oneFailEnv).filter
                (fun u => (fetch_report oneFailEnv u).isNone)).length
      ∧ ((mainRun oneFailEnv).reports ≠ []
          ↔ ((report_urls_of oneFailEnv).filter
              (fun u => (fetch_report oneFailEnv u).isNone)).length
              < (report_urls_of oneFailEnv).length)
      ∧ (mainRun oneFailEnv).notifications
          = (if (mainRun oneFailEnv).reports.isEmpty
             then [no_reports_subject oneFailEnv.today]
             else [success_subject oneFailEnv.today])) :=
  ⟨rfl, rfl, aggregate_records_and_terminal_subject oneFailEnv rfl rfl rfl rfl rfl rfl⟩

/-- Claim C2, counterexample: on a run whose results page carries the
dataTables_empty marker (so check_empty_results would return true), the
script never invokes the empty-results check at all; the empty case is
reached only through an empty enumeration, and its notification is the same
No Reports subject used for a zero-success run. -/
theorem empty_results_check_not_performed :
    check_empty_results [()] = true
    ∧ emptyResultsEnv.empty_marker = true
    ∧ (mainRun emptyResultsEnv).empty_check_calls = 0
    ∧ (mainRun emptyResultsEnv).extraction_attempts = []
    ∧ (mainRun emptyResultsEnv).notifications = [no_reports_subject "d"] := by
  refine ⟨rfl, rfl, rfl, rfl, rfl⟩

/-- Claim C2, amended: check_empty_results reports true exactly when marker
elements are present, but the script never calls it; on a run whose
enumeration yields zero references, zero references are passed to extraction
and the terminal notification is the No Reports subject. -/
theorem empty_result_set_run (env : Env)
    (hs : env.setup_ok = true) (hn : env.nav_ok = true)
    (ha : env.agree_ok = true) (hf : env.form_ok = true)
    (hr : env.notify_raises = false)
    (he : report_urls_of env = []) :
    (∀ l : List Unit, (check_empty_results l = true ↔ l ≠ []))
    ∧ (mainRun env).empty_check_calls = 0
    ∧ (mainRun env).extraction_attempts = []
    ∧ (mainRun env).notifications = [no_reports_subject env.today] := by
  have hm := mainRun_no_raise env hs hr
  have hb := run_body_processing env hn ha hf
  have hall : all_reports_of env = [] := by
    rw [all_reports_of_eq, he]
    rfl
  refine ⟨?_, ?_, ?_, ?_⟩
  · intro l
    cases l <;> simp [check_empty_results]
  · rw [hm]
  · rw [hm]
    simp [hb, attempts_of_eq, he]
  · rw [hm]
    simp [hb, body_notifs, hall]

/-- Claim C2, witness: the amended statement instantiated at the concrete
run whose result table body holds no anchors. -/
theorem empty_result_set_run_witness :
    report_urls_of emptyResultsEnv = []
    ∧ ((∀ l : List Unit, (check_empty_results l = true ↔ l ≠ []))
      ∧ (mainRun emptyResultsEnv).empty_check_calls = 0
      ∧ (mainRun emptyResultsEnv).extraction_attempts = []
      ∧ (mainRun emptyResultsEnv).notifications = [no_reports_subject emptyResultsEnv.today]) :=
  ⟨rfl, empty_result_set_run emptyResultsEnv rfl rfl rfl rfl rfl rfl⟩

/-- Claim C3, counterexample: a table body whose markup repeats one anchor
URL yields that URL twice from enumeration, so the reference list is not
duplicate free, and both occurrences are passed to extraction. -/
theorem duplicate_anchor_urls_kept :
    extract_report_urls (some [some "u", some "u"]) = ["u", "u"]
    ∧ ¬(extract_report_urls (some [some "u", some "u"])).Nodup
    ∧ (mainRun dupLinksEnv).extraction_attempts = ["u", "u"] := by
  refine ⟨rfl, by decide, rfl⟩

/-- Claim C3, amended: enumeration preserves duplicates: each non-empty URL
occurs in the reference list as many times as its anchor occurs in the
markup, and every occurrence in the enumerated list is passed to
extraction. -/
theorem enumeration_preserves_multiplicity (links : List (Option String))
    (u : String) (hu : u ≠ "") (env : Env) (hs : env.setup_ok = true)
    (hn : env.nav_ok = true) (ha : env.agree_ok = true) (hf : env.form_ok = true) :
    (extract_report_urls (some links)).count u = links.count (some u)
    ∧ (mainRun env).extraction_attempts = report_urls_of env := by
  constructor
  · rw [extract_report_urls_eq_filterMap]
    exact count_filterMap_href links u hu
  · simp [mainRun, hs, run_body_processing env hn ha hf, attempts_of_eq]

/-- Claim C3, witness: the amended statement instantiated at a duplicated
anchor and the concrete run discovering it. -/
theorem enumeration_preserves_multiplicity_witness :
    "u" ≠ ""
    ∧ ((extract_report_urls (some [some "u", some "u"])).count "u"
        = ([some "u", some "u"] : List (Option String)).count (some "u")
      ∧ (mainRun dupLinksEnv).extraction_attempts = report_urls_of dupLinksEnv) :=
  ⟨by decide,
   enumeration_preserves_multiplicity [some "u", some "u"] "u" (by decide)
     dupLinksEnv rfl rfl rfl rfl⟩

/-- Claim C4, counterexample: with no dataTables_empty marker and zero
anchors in the table body, the run does not fail: it completes normally with
exit code 0, one driver release and the benign No Reports notification,
exactly as if the day had no results. -/
theorem zero_anchors_without_marker_proceeds :
    zeroAnchorsEnv.empty_marker = false
    ∧ extract_report_urls zeroAnchorsEnv.tbody = []
    ∧ (mainRun zeroAnchorsEnv).exit_code = 0
    ∧ (mainRun zeroAnchorsEnv).notifications = [no_reports_subject "d"]
    ∧ (mainRun zeroAnchorsEnv).quit_calls = 1 := by
  refine ⟨rfl, rfl, rfl, rfl, rfl⟩

/-- Claim C4, amended: when enumeration finds zero anchors while the
empty-results marker is absent, the result-set stage raises nothing: the run
proceeds as a benign no-results run, with no extraction attempts, the No
Reports notification and exit code 0. -/
theorem zero_anchors_treated_as_no_results (env : Env)
    (hs : env.setup_ok = true) (hn : env.nav_ok = true)
    (ha : env.agree_ok = true) (hf : env.form_ok = true)
    (hr : env.notify_raises = false)
    (hmk : env.empty_marker = false)
    (he : report_urls_of env = []) :
    (mainRun env).exit_code = 0
    ∧ (mainRun env).extraction_attempts = []
    ∧ (mainRun env).notifications = [no_reports_subject env.today]
    ∧ (mainRun env).quit_calls = 1 := by
  have hm := mainRun_no_raise env hs hr
  have hb := run_body_processing env hn ha hf
  have hall : all_reports_of env = [] := by
    rw [all_reports_of_eq, he]
    rfl
  refine ⟨?_, ?_, ?_, ?_⟩
  · rw [hm]
  · rw [hm]
    simp [hb, attempts_of_eq, he]
  · rw [hm]
    simp [hb, body_notifs, hall]
  · rw [hm]

/-- Claim C4, witness: the amended statement instantiated at the concrete
run with zero anchors and no empty marker. -/
theorem zero_anchors_treated_as_no_results_witness :
    zeroAnchorsEnv.empty_marker = false
    ∧ report_urls_of zeroAnchorsEnv = []
    ∧ ((mainRun zeroAnchorsEnv).exit_code = 0
      ∧ (mainRun zeroAnchorsEnv).extraction_attempts = []
      ∧ (mainRun zeroAnchorsEnv).notifications = [no_reports_subject zeroAnchorsEnv.today]
      ∧ (mainRun zeroAnchorsEnv).quit_calls = 1) :=
  ⟨rfl, rfl, zero_anchors_treated_as_no_results zeroAnchorsEnv rfl rfl rfl rfl rfl rfl rfl⟩

/-- Claim C5: a per-reference extraction failure yields the None marker
rather than an abort, and the aggregation loop continues past it: the result
over any list containing a failing reference splits around that reference,
and equals the filterMap of the whole list, so every reference in discovery
order is consulted and a failure affects only its own entry. -/
theorem extraction_failure_marker_and_continuation
    (fetch : String → Option ReportData) (url timestamp : String)
    (xs zs : List String) (y : String) (h : fetch y = none) :
    process_single_report url timestamp none = none
    ∧ process_all_reports fetch (xs ++ y :: zs)
        = process_all_reports fetch xs ++ process_all_reports fetch zs
    ∧ process_all_reports fetch (xs ++ y :: zs) = (xs ++ y :: zs).filterMap fetch := by
  refine ⟨rfl, ?_, process_all_reports_eq_filterMap fetch (xs ++ y :: zs)⟩
  simp only [process_all_reports_eq_filterMap]
  simp [List.filterMap_append, List.filterMap_cons, h]

/-- Claim C5, witness: the statement instantiated at a concrete oracle that
fails on the middle reference of three. -/
theorem extraction_failure_marker_witness :
    testFetch "b" = none
    ∧ (process_single_report "u" "n" none = none
      ∧ process_all_reports testFetch (["a"] ++ "b" :: ["a"])
          = process_all_reports testFetch ["a"] ++ process_all_reports testFetch ["a"]
      ∧ process_all_reports testFetch (["a"] ++ "b" :: ["a"])
          = (["a"] ++ "b" :: ["a"]).filterMap testFetch) :=
  ⟨by decide,
   extraction_failure_marker_and_continuation testFetch "u" "n" ["a"] ["a"] "b" (by decide)⟩

/-- Claim C6: extraction of a loaded detail page never fails: it skips the
header row and keeps exactly the rows with at least nine cells, each kept
row contributing the stripped texts of its first nine cells, while shorter
rows contribute nothing. -/
theorem detail_row_filtering (url timestamp : String)
    (rows : List (List String)) (cells : List String) (h9 : 9 ≤ cells.length) :
    process_single_report url timestamp (some rows)
      = some { url := url, timestamp := timestamp,
               transactions := (rows.drop 1).filterMap row_transaction }
    ∧ row_transaction cells
        = some { number := pyStrip (cells.getD 0 ""),
                 transaction_date := pyStrip (cells.getD 1 ""),
                 owner := pyStrip (cells.getD 2 ""),
                 ticker := pyStrip (cells.getD 3 ""),
                 asset_name := pyStrip (cells.getD 4 ""),
                 asset_type := pyStrip (cells.getD 5 ""),
                 type := pyStrip (cells.getD 6 ""),
                 amount := pyStrip (cells.getD 7 ""),
                 comment := pyStrip (cells.getD 8 "") }
    ∧ (∀ cs : List String, cs.length < 9 → row_transaction cs = none) := by
  refine ⟨single_report_transactions url timestamp rows, ?_, ?_⟩
  · simp [row_transaction, h9]
  · intro cs hcs
    simp [row_transaction, show ¬(9 ≤ cs.length) from by omega]

/-- Claim C6, witness: the statement instantiated at the concrete detail
page and its nine-cell data row. -/
theorem detail_row_filtering_witness :
    9 ≤ nineCells.length
    ∧ (process_single_report "u" "n" (some basePage)
        = some { url := "u", timestamp := "n",
                 transactions := (basePage.drop 1).filterMap row_transaction }
      ∧ row_transaction nineCells
          = some { number := pyStrip (nineCells.getD 0 ""),
                   transaction_date := pyStrip (nineCells.getD 1 ""),
                   owner := pyStrip (nineCells.getD 2 ""),
                   ticker := pyStrip (nineCells.getD 3 ""),
                   asset_name := pyStrip (nineCells.getD 4 ""),
                   asset_type := pyStrip (nineCells.getD 5 ""),
                   type := pyStrip (nineCells.getD 6 ""),
                   amount := pyStrip (nineCells.getD 7 ""),
                   comment := pyStrip (nineCells.getD 8 "") }
      ∧ (∀ cs : List String, cs.length < 9 → row_transaction cs = none)) :=
  ⟨by decide, detail_row_filtering "u" "n" basePage nineCells (by decide)⟩

/-- Claim C7: on every run whose driver was constructed, the with-statement
guarantees that cleanup, and hence driver.quit, runs exactly once, on normal
completion, on stage failures and on a propagated notification exception
alike. -/
theorem driver_released_exactly_once (env : Env) (hs : env.setup_ok = true) :
    (mainRun env).quit_calls = 1 := by
  simp [mainRun, hs]

/-- Claim C7, witness: one driver release on a successful run, on a failed
navigation and on a run whose notification raises. -/
theorem driver_released_exactly_once_witness :
    baseEnv.setup_ok = true
    ∧ (mainRun baseEnv).quit_calls = 1
    ∧ (mainRun { baseEnv with nav_ok := false }).quit_calls = 1
    ∧ (mainRun { baseEnv with notify_raises := true }).quit_calls = 1 :=
  ⟨rfl, driver_released_exactly_once baseEnv rfl,
   driver_released_exactly_once { baseEnv with nav_ok := false } rfl,
   driver_released_exactly_once { baseEnv with notify_raises := true } rfl⟩

/-- Claim C8, counterexample: a navigation failure is a fatal stage outcome
yet the run terminates with zero notification attempts, because the script
only notifies from the report-processing branch; a run whose save fails
likewise ends with records but no notification. -/
theorem stage_failures_send_no_notification :
    (mainRun navFailEnv).notifications = []
    ∧ (mainRun navFailEnv).quit_calls = 1
    ∧ (mainRun saveFailEnv).reports.length = 2
    ∧ (mainRun saveFailEnv).notifications = [] := by
  refine ⟨rfl, rfl, rfl, rfl⟩

/-- Claim C8, amended: at most one notification is attempted per run, and
none is attempted exactly when a stage before report processing failed or
when records were extracted but the save failed; only the Success and No
Reports outcomes of report processing notify. -/
theorem notification_attempt_policy (env : Env) (hs : env.setup_ok = true)
    (hr : env.notify_raises = false) :
    (mainRun env).notifications.length ≤ 1
    ∧ ((mainRun env).notifications = []
        ↔ ((env.nav_ok && env.agree_ok && env.form_ok) = false
            ∨ ((mainRun env).reports ≠ [] ∧ env.save_ok = false))) := by
  rw [mainRun_no_raise env hs hr]
  by_cases hn : env.nav_ok = true
  · by_cases ha : env.agree_ok = true
    · by_cases hf : env.form_ok = true
      · rw [run_body_processing env hn ha hf]
        by_cases hae : (all_reports_of env).isEmpty
        · have h0 : all_reports_of env = [] := by simpa using hae
          constructor
          · simp [body_notifs, hae]
          · simp [body_notifs, hae, h0, hn, ha, hf]
        · have hne : all_reports_of env ≠ [] := by simpa using hae
          have hae' : (all_reports_of env).isEmpty = false := by simpa using hae
          by_cases hsv : env.save_ok = true
          · constructor
            · simp [body_notifs, hae', hsv]
            · simp [body_notifs, hae', hsv, hn, ha, hf]
          · have hsv' : env.save_ok = false := by simpa using hsv
            constructor
            · simp [body_notifs, hae', hsv']
            · simp [body_notifs, hae', hsv', hn, ha, hf, hne]
      · have hf' : env.form_ok = false := by simpa using hf
        have hb : run_body env = ([], [], []) := by simp [run_body, hf']
        rw [hb]
        simp [hn, ha, hf']
    · have ha' : env.agree_ok = false := by simpa using ha
      have hb : run_body env = ([], [], []) := by simp [run_body, ha']
      rw [hb]
      simp [hn, ha']
  · have hn' : env.nav_ok = false := by simpa using hn
    have hb : run_body env = ([], [], []) := by simp [run_body, hn']
    rw [hb]
    simp [hn']

/-- Claim C8, witness: the amended statement instantiated at the fully
successful run. -/
theorem notification_attempt_policy_witness :
    baseEnv.setup_ok = true
    ∧ ((mainRun baseEnv).notifications.length ≤ 1
      ∧ ((mainRun baseEnv).notifications = []
          ↔ ((baseEnv.nav_ok && baseEnv.agree_ok && baseEnv.form_ok) = false
              ∨ ((mainRun baseEnv).reports ≠ [] ∧ baseEnv.save_ok = false)))) :=
  ⟨rfl, notification_attempt_policy baseEnv rfl rfl⟩

/-- Claim C9, counterexample: a consent-stage failure, a fatal outcome per
the design, exits with code 0, and so does a run in which every extraction
failed (a zero-success partial run): the script only exits nonzero from its
exception handler. -/
theorem fatal_and_zero_success_exit_code_zero :
    (mainRun agreeFailEnv).exit_code = 0
    ∧ (mainRun allFailEnv).reports = []
    ∧ (mainRun allFailEnv).extraction_attempts.length = 2
    ∧ (mainRun allFailEnv).exit_code = 0 := by
  refine ⟨rfl, rfl, rfl, rfl⟩

/-- Claim C9, amended: the process exit code is nonzero exactly when an
exception propagates to the top level, i.e. when driver setup raises or a
notification attempt raises; stage failures and zero-success runs exit 0. -/
theorem exit_code_nonzero_iff_exception (env : Env) :
    ((mainRun env).exit_code ≠ 0
      ↔ (env.setup_ok = false
          ∨ (env.notify_raises = true ∧ (mainRun env).notifications ≠ []))) := by
  by_cases hs : env.setup_ok = true
  · by_cases hr : env.notify_raises = true
    · by_cases hne : ((run_body env).2.2).isEmpty
      · have h0 : (run_body env).2.2 = [] := by simpa using hne
        simp [mainRun, hs, hr, h0]
      · have hne' : ((run_body env).2.2).isEmpty = false := by simpa using hne
        simp [mainRun, hs, hr, hne']
    · have hr' : env.notify_raises = false := by simpa using hr
      simp [mainRun, hs, hr']
  · have hs' : env.setup_ok = false := by simpa using hs
    simp [mainRun, hs']

/-- Claim C9, witness: the characterization instantiated at the fully
successful run and evaluated. -/
theorem exit_code_nonzero_iff_exception_witness :
    ((mainRun baseEnv).exit_code ≠ 0
      ↔ (baseEnv.setup_ok = false
          ∨ (baseEnv.notify_raises = true ∧ (mainRun baseEnv).notifications ≠ []))) :=
  exit_code_nonzero_iff_exception baseEnv

/-- Claim C10: every URL returned by enumeration over a located table body
is non-empty and is the href of some anchor of that body, and the returned
list is the order-preserving filterMap of the per-anchor href contributions,
so absent and empty href attributes contribute nothing. -/
theorem enumerated_urls_from_anchors (links : List (Option String)) (u : String)
    (hu : u ∈ extract_report_urls (some links)) :
    extract_report_urls (some links) = links.filterMap href_value
    ∧ u ≠ "" ∧ some u ∈ links := by
  have he := extract_report_urls_eq_filterMap links
  rw [he] at hu
  obtain ⟨o, ho, hv⟩ := List.mem_filterMap.mp hu
  cases o with
  | none => simp [href_value] at hv
  | some v =>
      by_cases hv0 : v = ""
      · rw [hv0] at hv
        simp [href_value] at hv
      · simp [href_value, hv0] at hv
        subst hv
        exact ⟨he, hv0, ho⟩

/-- Claim C10, witness: the statement instantiated at a table body with one
good anchor, one anchor with no href and one anchor with an empty href. -/
theorem enumerated_urls_from_anchors_witness :
    "a" ∈ extract_report_urls (some [some "a", none, some ""])
    ∧ (extract_report_urls (some [some "a", none, some ""])
        = ([some "a", none, some ""] : List (Option String)).filterMap href_value
      ∧ "a" ≠ "" ∧ some "a" ∈ ([some "a", none, some ""] : List (Option String))) :=
  ⟨by decide, enumerated_urls_from_anchors [some "a", none, some ""] "a" (by decide)⟩
